import Mathlib

/-!
Verification of the order/payment/inventory subsystem of the
product-management marketplace backend.

The embedding translates `OrderService` (`createOrder`, `verifyPayment`,
`updateOrderStatus`, `getOrderById`) and the webhook-signature check of
`OrderController.verifyPayment` into pure Lean functions.  Repository
lookups become explicit `Option` parameters (the result the ORM query
would return), and every persistence call (`repository.save` /
`repository.update`) is recorded, in program order, in a `writes` list,
so that claims about what is persisted, in which order, and what is left
untouched can be stated as equalities on that list.  Thrown NestJS
exceptions become an `Err` sum carried in an `Except` outcome.
-/

namespace PM

/-- Product lifecycle states, from `ProductStatus` in
`product/entities/product.entity.ts`. -/
inductive ProductStatus
  | active
  | out_of_stock
  | deleted
  deriving DecidableEq, Repr

/-- String value of each `ProductStatus` enum member, as stored/printed
by the TypeScript enum. -/
def ProductStatus.name : ProductStatus → String
  | .active => "active"
  | .out_of_stock => "out_of_stock"
  | .deleted => "deleted"

/-- Order lifecycle states, from `OrderStatus` in
`order/entities/order.entity.ts`. -/
inductive OrderStatus
  | pending
  | successful
  | failed
  deriving DecidableEq, Repr

/-- The fields of the `Product` entity that the order subsystem reads or
writes.  `stock` is an `int` column, modelled as `Int`; user ids are
opaque, modelled as `Nat`. -/
structure Product where
  stock : Int
  status : ProductStatus
  userId : Nat
  price : Int
  deriving DecidableEq, Repr

/-- The fields of the `Order` entity the order subsystem reads or writes.
`userId` is a nullable column, hence `Option Nat`. -/
structure Order where
  userId : Option Nat
  productId : Nat
  quantity : Int
  totalPrice : Int
  txRef : String
  status : OrderStatus
  deriving DecidableEq, Repr

/-- The fields of the `User` entity that `createOrder` reads. -/
structure User where
  firstName : String
  lastName : String
  deriving DecidableEq, Repr

/-- The NestJS exceptions thrown by the order subsystem:
`NotFoundException`, `BadRequestException` (the spec's `InvalidState` /
`InvalidSignature` / `PaymentNotConfirmed`), `ForbiddenException`, and
`InternalServerErrorException`. -/
inductive Err
  | notFound (msg : String)
  | badRequest (msg : String)
  | forbidden (msg : String)
  | internal (msg : String)
  deriving DecidableEq, Repr

/-- One persistence call, recorded in program order:
`productRepository.save`, or `orderRepository.save` (also standing for
the partial `orderRepository.update` in `createOrder`, whose net row
state is the recorded order). -/
inductive Write
  | saveProduct (p : Product)
  | saveOrder (o : Order)
  deriving DecidableEq, Repr

instance {ε α : Type} [DecidableEq ε] [DecidableEq α] :
    DecidableEq (Except ε α) := fun x y =>
  match x, y with
  | .ok a, .ok b =>
      if h : a = b then isTrue (by rw [h])
      else isFalse (by intro hh; cases hh; exact h rfl)
  | .error a, .error b =>
      if h : a = b then isTrue (by rw [h])
      else isFalse (by intro hh; cases hh; exact h rfl)
  | .ok _, .error _ => isFalse (by intro hh; cases hh)
  | .error _, .ok _ => isFalse (by intro hh; cases hh)

/-- The relevant fields of the Chapa gateway verification response:
`response.status`, `response.data.status`, `response.data.tx_ref`. -/
structure ChapaVerifyResp where
  status : String
  dataStatus : String
  dataTxRef : String
  deriving DecidableEq, Repr

/-- Result of `OrderService.verifyPayment`: the persistence calls it
performed, in order, and either the returned order or the thrown
exception. -/
structure VerifyResult where
  writes : List Write
  outcome : Except Err Order
  deriving DecidableEq, Repr

/-- `OrderService.verifyPayment` from `order.service.ts`.  `resp` is the
gateway's answer to `chapa.verify({ tx_ref: txRef })`; `lookup` is the
result of `orderRepository.findOne({ where: { txRef: resp.data.tx_ref },
relations: ['product'] })`, i.e. the order together with its product
relation. -/
def verifyPayment (resp : ChapaVerifyResp)
    (lookup : Option (Order × Product)) : VerifyResult :=
  if resp.status ≠ "success" ∨ resp.dataStatus ≠ "success" then
    { writes := [], outcome := .error (.badRequest "Payment verification failed") }
  else
    match lookup with
    | none =>
        { writes := [], outcome := .error (.notFound "Order not found") }
    | some (order0, product0) =>
        if order0.status ≠ OrderStatus.pending then
          { writes := [], outcome := .ok order0 }
        else
          let order1 := { order0 with status := OrderStatus.successful }
          if product0.stock ≥ order1.quantity then
            let stock1 := product0.stock - order1.quantity
            let product1 :=
              if stock1 = 0 then
                { product0 with stock := stock1, status := ProductStatus.out_of_stock }
              else
                { product0 with stock := stock1 }
            { writes := [Write.saveProduct product1, Write.saveOrder order1],
              outcome := .ok order1 }
          else
            let order2 := { order0 with status := OrderStatus.failed }
            { writes := [Write.saveOrder order2],
              outcome := .error (.badRequest
                "Insufficient stock to complete order. Payment will be refunded.") }

/-- Result of `OrderService.createOrder`: the persistence calls, and
either the `{ checkoutUrl, txRef }` pair or the thrown exception. -/
structure CreateResult where
  writes : List Write
  outcome : Except Err (String × String)
  deriving DecidableEq, Repr

/-- `OrderService.createOrder` from `order.service.ts`.  `user` and
`product` are the repository lookups for the authenticated user id and
`dto.productId`; `txRef` is the generated transaction reference; `gwInit`
is the gateway session: `some url` when `chapa.initialize` returned a
response with `data.checkout_url`, `none` when the call threw or the
response lacked a checkout url (both reach the same catch block, which
marks the order failed and throws `InternalServerErrorException`). -/
def createOrder (user : Option User) (product : Option Product)
    (quantity : Int) (productId : Nat) (userId : Nat) (txRef : String)
    (gwInit : Option String) : CreateResult :=
  match user with
  | none => { writes := [], outcome := .error (.notFound "User not found") }
  | some _ =>
    match product with
    | none => { writes := [], outcome := .error (.notFound "Product not found") }
    | some product0 =>
      if product0.status = ProductStatus.deleted then
        { writes := [],
          outcome := .error (.badRequest "Product is no longer available") }
      else if product0.status ≠ ProductStatus.active then
        { writes := [],
          outcome := .error (.badRequest
            ("Product is not available for purchase (status: "
              ++ product0.status.name ++ ")")) }
      else if product0.stock < quantity then
        { writes := [],
          outcome := .error (.badRequest
            ("Insufficient stock. Available: " ++ toString product0.stock
              ++ ", Requested: " ++ toString quantity)) }
      else
        let totalPrice := product0.price * quantity
        let order0 : Order :=
          { userId := some userId, productId := productId,
            quantity := quantity, totalPrice := totalPrice,
            txRef := txRef, status := OrderStatus.pending }
        match gwInit with
        | some url =>
            { writes := [Write.saveOrder order0], outcome := .ok (url, txRef) }
        | none =>
            { writes := [Write.saveOrder order0,
                         Write.saveOrder { order0 with status := OrderStatus.failed }],
              outcome := .error (.internal "Could not process payment") }

/-- Result of `OrderService.updateOrderStatus`: persistence calls and
either the updated order or the thrown exception. -/
structure UpdateResult where
  writes : List Write
  outcome : Except Err Order
  deriving DecidableEq, Repr

/-- `OrderService.updateOrderStatus` from `order.service.ts`.  `lookup`
is `orderRepository.findOne({ where: { id: orderId }, relations:
['product'] })` (the order with its product relation); `fetched` is the
separate `productRepository.findOne({ where: { id: order.productId } })`
performed on the successful-to-failed restore path. -/
def updateOrderStatus (lookup : Option (Order × Product)) (userId : Nat)
    (newStatus : OrderStatus) (fetched : Option Product) : UpdateResult :=
  match lookup with
  | none => { writes := [], outcome := .error (.notFound "Order not found") }
  | some (order0, relProduct) =>
    if relProduct.userId ≠ userId then
      { writes := [],
        outcome := .error (.forbidden
          "Only the product owner can update order status") }
    else
      let oldStatus := order0.status
      let order1 := { order0 with status := newStatus }
      if newStatus = OrderStatus.failed ∧ oldStatus = OrderStatus.successful then
        match fetched with
        | some product0 =>
            let product1 := { product0 with stock := product0.stock + order0.quantity }
            let product2 :=
              if product1.stock > 0 ∧ product1.status = ProductStatus.out_of_stock then
                { product1 with status := ProductStatus.active }
              else
                product1
            { writes := [Write.saveProduct product2, Write.saveOrder order1],
              outcome := .ok order1 }
        | none =>
            { writes := [Write.saveOrder order1], outcome := .ok order1 }
      else
        { writes := [Write.saveOrder order1], outcome := .ok order1 }

/-- `OrderService.getOrderById` from `order.service.ts`.  `lookup` is the
order-with-product-relation query for the requested id; `userId` is the
requesting principal. -/
def getOrderById (lookup : Option (Order × Product)) (userId : Nat) :
    Except Err Order :=
  match lookup with
  | none => .error (.notFound "Order not found")
  | some (order0, product0) =>
    if order0.userId ≠ some userId ∧ product0.userId ≠ userId then
      .error (.forbidden "You do not have access to this order")
    else
      .ok order0

/-- Result of the webhook controller endpoint: whether the gateway
verification query was ever issued, the persistence calls, and the
outcome. -/
structure WebhookResult where
  gatewayQueried : Bool
  writes : List Write
  outcome : Except Err Order
  deriving DecidableEq, Repr

/-- `OrderController.verifyPayment` from `order.controller.ts`: recompute
the HMAC-SHA256 (abstracted as the parameter `hmacSha256`, keyed by the
shared `CHAPA_WEBHOOK_SECRET`) over `JSON.stringify(req.body)` (the
`bodyJson` parameter), compare it with the `x-chapa-signature` header,
and only on a match delegate to `OrderService.verifyPayment`. -/
def webhookVerifyPayment (hmacSha256 : String → String → String)
    (secret bodyJson sig : String) (resp : ChapaVerifyResp)
    (lookup : Option (Order × Product)) : WebhookResult :=
  if hmacSha256 secret bodyJson ≠ sig then
    { gatewayQueried := false, writes := [],
      outcome := .error (.badRequest "Invalid Chapa signature") }
  else
    let r := verifyPayment resp lookup
    { gatewayQueried := true, writes := r.writes, outcome := r.outcome }

/-- The product row state after replaying a write list on top of a
starting row: the last `saveProduct` in the list, or the start if there
is none. -/
def postProduct (p : Product) (ws : List Write) : Product :=
  ws.foldl (fun acc w => match w with | .saveProduct q => q | .saveOrder _ => acc) p

/-- The product-state invariant of the spec: stock is never negative,
and a product with zero stock is never `active`. -/
def ProductInv (p : Product) : Prop :=
  0 ≤ p.stock ∧ (p.stock = 0 → p.status ≠ ProductStatus.active)

instance (p : Product) : Decidable (ProductInv p) := by
  unfold ProductInv; infer_instance

/-- One owner-driven status write followed by replaying its persistence
on the product row: the order state the call returns (unchanged if it
throws) and the product row after its writes.  Used to chain several
owner updates sequentially. -/
def ownerSetStatus (o : Order) (p : Product) (userId : Nat)
    (s : OrderStatus) : Order × Product :=
  let r := updateOrderStatus (some (o, p)) userId s (some p)
  (match r.outcome with | .ok o2 => o2 | .error _ => o, postProduct p r.writes)

/-- Three sequential owner-driven status writes on the same order and
product — to `failed`, then `successful`, then `failed` — threading the
order and product state returned by each call into the next. -/
def toggleFailedTwice (o : Order) (p : Product) (userId : Nat) :
    Order × Product :=
  let s1 := ownerSetStatus o p userId OrderStatus.failed
  let s2 := ownerSetStatus s1.1 s1.2 userId OrderStatus.successful
  ownerSetStatus s2.1 s2.2 userId OrderStatus.failed

/-- A concrete gateway success response, for witnesses. -/
def respEx : ChapaVerifyResp :=
  { status := "success", dataStatus := "success", dataTxRef := "TX-x" }

/-- A concrete pending order of quantity 2, for witnesses. -/
def oEx : Order :=
  { userId := some 1, productId := 10, quantity := 2, totalPrice := 40,
    txRef := "TX-x", status := OrderStatus.pending }

/-- A concrete active product with stock 5, owned by user 7, for
witnesses. -/
def pEx : Product :=
  { stock := 5, status := ProductStatus.active, userId := 7, price := 20 }

/-- A concrete user, for witnesses. -/
def uEx : User := { firstName := "Ada", lastName := "L" }

/-- C1: for a pending order whose transaction reference the gateway
confirms as successfully paid, when the product's stock covers the
order's quantity, `verifyPayment` decrements stock by exactly the
quantity, sets the product status to `out_of_stock` exactly when the
resulting stock is 0 (otherwise leaves it as it was), marks the order
`successful`, persists the product and then the order in that order, and
returns the updated order. -/
theorem C1_verify_sufficient_stock (resp : ChapaVerifyResp) (o : Order)
    (p : Product) (h1 : resp.status = "success")
    (h2 : resp.dataStatus = "success") (hpend : o.status = OrderStatus.pending)
    (hstock : o.quantity ≤ p.stock) :
    verifyPayment resp (some (o, p)) =
      { writes := [Write.saveProduct
            { p with stock := p.stock - o.quantity,
                     status := if p.stock - o.quantity = 0 then
                         ProductStatus.out_of_stock
                       else p.status },
          Write.saveOrder { o with status := OrderStatus.successful }],
        outcome := .ok { o with status := OrderStatus.successful } } := by
  by_cases hz : p.stock - o.quantity = 0 <;>
    simp [verifyPayment, h1, h2, hpend, hstock, hz]

/-- C1 witness: concrete success-path verification on stock 5, quantity
2. -/
theorem C1_witness :
    verifyPayment respEx (some (oEx, pEx)) =
      { writes := [Write.saveProduct
            { pEx with stock := pEx.stock - oEx.quantity,
                       status := if pEx.stock - oEx.quantity = 0 then
                           ProductStatus.out_of_stock
                         else pEx.status },
          Write.saveOrder { oEx with status := OrderStatus.successful }],
        outcome := .ok { oEx with status := OrderStatus.successful } } :=
  C1_verify_sufficient_stock respEx oEx pEx rfl rfl rfl (by decide)

/-- C2: webhook verification is idempotent.  First conjunct: when the
gateway confirms the payment but the order is no longer `pending`,
`verifyPayment` performs no write and returns the order unchanged.
Second conjunct: after a first successful verification of a pending,
sufficiently stocked order, the first call returns the order as
`successful`, a second call on the resulting order/product state
performs no write and returns the very same order, and the product stock
after both calls is decremented exactly once. -/
theorem C2_verify_idempotent :
    (∀ (resp : ChapaVerifyResp) (o : Order) (p : Product),
      resp.status = "success" → resp.dataStatus = "success" →
      o.status ≠ OrderStatus.pending →
      verifyPayment resp (some (o, p)) = { writes := [], outcome := .ok o }) ∧
    (∀ (resp : ChapaVerifyResp) (o : Order) (p : Product),
      resp.status = "success" → resp.dataStatus = "success" →
      o.status = OrderStatus.pending → o.quantity ≤ p.stock →
      (verifyPayment resp (some (o, p))).outcome =
        .ok { o with status := OrderStatus.successful } ∧
      verifyPayment resp
          (some ({ o with status := OrderStatus.successful },
            postProduct p (verifyPayment resp (some (o, p))).writes)) =
        { writes := [],
          outcome := .ok { o with status := OrderStatus.successful } } ∧
      (postProduct p (verifyPayment resp (some (o, p))).writes).stock =
        p.stock - o.quantity) := by
  constructor
  · intro resp o p h1 h2 hnp
    simp [verifyPayment, h1, h2, hnp]
  · intro resp o p h1 h2 hpend hstock
    refine ⟨?_, ?_, ?_⟩ <;>
      by_cases hz : p.stock - o.quantity = 0 <;>
        simp [verifyPayment, postProduct, h1, h2, hpend, hstock, hz]

/-- C2 witness: verifying the concrete pending order twice leaves stock
decremented once and the second call a no-op. -/
theorem C2_witness :
    (verifyPayment respEx (some (oEx, pEx))).outcome =
      .ok { oEx with status := OrderStatus.successful } ∧
    verifyPayment respEx
        (some ({ oEx with status := OrderStatus.successful },
          postProduct pEx (verifyPayment respEx (some (oEx, pEx))).writes)) =
      { writes := [],
        outcome := .ok { oEx with status := OrderStatus.successful } } ∧
    (postProduct pEx (verifyPayment respEx (some (oEx, pEx))).writes).stock =
      pEx.stock - oEx.quantity :=
  C2_verify_idempotent.2 respEx oEx pEx rfl rfl rfl (by decide)

/-- C3: for a pending order whose payment the gateway confirms but whose
product stock no longer covers the quantity, `verifyPayment` persists
only the order, now `failed`, and throws the insufficient-stock
`BadRequestException`; the product is never written. -/
theorem C3_verify_insufficient_stock (resp : ChapaVerifyResp) (o : Order)
    (p : Product) (h1 : resp.status = "success")
    (h2 : resp.dataStatus = "success") (hpend : o.status = OrderStatus.pending)
    (hstock : p.stock < o.quantity) :
    verifyPayment resp (some (o, p)) =
      { writes := [Write.saveOrder { o with status := OrderStatus.failed }],
        outcome := .error (.badRequest
          "Insufficient stock to complete order. Payment will be refunded.") } := by
  simp [verifyPayment, h1, h2, hpend, not_le.mpr hstock]

/-- C3 witness: stock 0 against quantity 2. -/
theorem C3_witness :
    verifyPayment respEx (some (oEx, { pEx with stock := 0 })) =
      { writes := [Write.saveOrder { oEx with status := OrderStatus.failed }],
        outcome := .error (.badRequest
          "Insufficient stock to complete order. Payment will be refunded.") } :=
  C3_verify_insufficient_stock respEx oEx { pEx with stock := 0 }
    rfl rfl rfl (by decide)

/-- C4: owner-driven order status update.  First conjunct: transitioning
an order from `successful` to `failed` increments the product stock by
the order's quantity, flips the product back to `active` exactly when it
was `out_of_stock` and the resulting stock is positive, and persists
product then order.  Second conjunct: every other transition writes only
the order's new status, with no product write at all. -/
theorem C4_update_order_status :
    (∀ (o : Order) (p : Product) (u : Nat),
      p.userId = u → o.status = OrderStatus.successful →
      updateOrderStatus (some (o, p)) u OrderStatus.failed (some p) =
        { writes := [Write.saveProduct
              { p with stock := p.stock + o.quantity,
                       status := if p.stock + o.quantity > 0 ∧
                           p.status = ProductStatus.out_of_stock then
                           ProductStatus.active
                         else p.status },
            Write.saveOrder { o with status := OrderStatus.failed }],
          outcome := .ok { o with status := OrderStatus.failed } }) ∧
    (∀ (o : Order) (p : Product) (u : Nat) (s : OrderStatus),
      p.userId = u →
      ¬(s = OrderStatus.failed ∧ o.status = OrderStatus.successful) →
      updateOrderStatus (some (o, p)) u s (some p) =
        { writes := [Write.saveOrder { o with status := s }],
          outcome := .ok { o with status := s } }) := by
  constructor
  · intro o p u hown hsucc
    by_cases hz : p.stock + o.quantity > 0 ∧ p.status = ProductStatus.out_of_stock <;>
      simp [updateOrderStatus, hown, hsucc, hz]
  · intro o p u s hown hnot
    simp [updateOrderStatus, hown, hnot]

/-- C4 witness: forcing the concrete successful order (quantity 2) to
`failed` on a product with stock 5 yields stock 7; a `pending` order
forced to `failed` leaves the product untouched. -/
theorem C4_witness :
    updateOrderStatus
        (some ({ oEx with status := OrderStatus.successful }, pEx)) 7
        OrderStatus.failed (some pEx) =
      { writes := [Write.saveProduct
            { pEx with stock := pEx.stock + oEx.quantity,
                       status := if pEx.stock + oEx.quantity > 0 ∧
                           pEx.status = ProductStatus.out_of_stock then
                           ProductStatus.active
                         else pEx.status },
          Write.saveOrder { oEx with status := OrderStatus.failed }],
        outcome := .ok { oEx with status := OrderStatus.failed } } ∧
    updateOrderStatus (some (oEx, pEx)) 7 OrderStatus.failed (some pEx) =
      { writes := [Write.saveOrder { oEx with status := OrderStatus.failed }],
        outcome := .ok { oEx with status := OrderStatus.failed } } :=
  ⟨C4_update_order_status.1 { oEx with status := OrderStatus.successful }
      pEx 7 rfl rfl,
    C4_update_order_status.2 oEx pEx 7 OrderStatus.failed rfl (by decide)⟩

/-- C10: the owner-driven `failed` to `successful` transition performs no
stock decrement, so restoration is not inverse to any debit on that
path: starting from a `successful` order of quantity `q` on its owner's
product with stock `s`, applying `successful` to `failed`, then `failed`
to `successful`, then `successful` to `failed` leaves the order `failed`
and the product stock at `s + 2*q`. -/
theorem C10_toggle_inflates_stock (o : Order) (p : Product) (u : Nat)
    (hown : p.userId = u) (hsucc : o.status = OrderStatus.successful) :
    (toggleFailedTwice o p u).1.status = OrderStatus.failed ∧
    (toggleFailedTwice o p u).2.stock = p.stock + 2 * o.quantity := by
  by_cases hs : p.status = ProductStatus.out_of_stock <;>
    by_cases hz : p.stock + o.quantity > 0 <;>
      by_cases hz2 : p.stock + o.quantity + o.quantity > 0 <;>
        simp [toggleFailedTwice, ownerSetStatus, updateOrderStatus, postProduct,
          hown, hsucc, hs, hz, hz2] <;> ring

/-- C10 witness: successful order of quantity 2 on stock 5; after the
failed, successful, failed toggle the order is failed and the stock is
9 = 5 + 2*2. -/
theorem C10_witness :
    (toggleFailedTwice { oEx with status := OrderStatus.successful } pEx 7).1.status =
      OrderStatus.failed ∧
    (toggleFailedTwice { oEx with status := OrderStatus.successful } pEx 7).2.stock =
      pEx.stock +
        2 * ({ oEx with status := OrderStatus.successful } : Order).quantity :=
  C10_toggle_inflates_stock { oEx with status := OrderStatus.successful }
    pEx 7 rfl rfl

/-- C5: the five checkout preconditions, checked in order, each throw
the documented exception with no persistence call and no product write:
missing buyer (`NotFoundException`), missing product
(`NotFoundException`), deleted product (`BadRequestException`),
non-active product (`BadRequestException` carrying the current status),
insufficient stock (`BadRequestException` carrying both values). -/
theorem C5_create_order_preconditions :
    (∀ (product : Option Product) (q : Int) (pid uid : Nat) (tx : String)
        (gw : Option String),
      createOrder none product q pid uid tx gw =
        { writes := [], outcome := .error (.notFound "User not found") }) ∧
    (∀ (user : User) (q : Int) (pid uid : Nat) (tx : String)
        (gw : Option String),
      createOrder (some user) none q pid uid tx gw =
        { writes := [], outcome := .error (.notFound "Product not found") }) ∧
    (∀ (user : User) (p : Product) (q : Int) (pid uid : Nat) (tx : String)
        (gw : Option String), p.status = ProductStatus.deleted →
      createOrder (some user) (some p) q pid uid tx gw =
        { writes := [],
          outcome := .error (.badRequest "Product is no longer available") }) ∧
    (∀ (user : User) (p : Product) (q : Int) (pid uid : Nat) (tx : String)
        (gw : Option String), p.status ≠ ProductStatus.deleted →
      p.status ≠ ProductStatus.active →
      createOrder (some user) (some p) q pid uid tx gw =
        { writes := [],
          outcome := .error (.badRequest
            ("Product is not available for purchase (status: "
              ++ p.status.name ++ ")")) }) ∧
    (∀ (user : User) (p : Product) (q : Int) (pid uid : Nat) (tx : String)
        (gw : Option String), p.status = ProductStatus.active →
      p.stock < q →
      createOrder (some user) (some p) q pid uid tx gw =
        { writes := [],
          outcome := .error (.badRequest
            ("Insufficient stock. Available: " ++ toString p.stock
              ++ ", Requested: " ++ toString q)) }) := by
  refine ⟨fun product q pid uid tx gw => rfl, fun user q pid uid tx gw => rfl,
    ?_, ?_, ?_⟩
  · intro user p q pid uid tx gw hdel
    simp [createOrder, hdel]
  · intro user p q pid uid tx gw hdel hact
    simp [createOrder, hdel, hact]
  · intro user p q pid uid tx gw hact hstock
    simp [createOrder, hact, hstock]

/-- C5 witness: ordering quantity 2 of an `out_of_stock` product throws
the status-carrying `BadRequestException` and persists nothing. -/
theorem C5_witness :
    createOrder (some uEx) (some { pEx with status := ProductStatus.out_of_stock })
        2 10 1 "TX-x" (some "https://pay") =
      { writes := [],
        outcome := .error (.badRequest
          ("Product is not available for purchase (status: "
            ++ ({ pEx with status := ProductStatus.out_of_stock } : Product).status.name
            ++ ")")) } :=
  C5_create_order_preconditions.2.2.2.1 uEx
    { pEx with status := ProductStatus.out_of_stock } 2 10 1 "TX-x"
    (some "https://pay") (by decide) (by decide)

/-- C6: when every precondition passes but the gateway session cannot be
obtained (the call threw, or the response carried no checkout url),
`createOrder` first persists the new order in `pending`, then updates
that same order to `failed`, and throws the generic
`InternalServerErrorException`; the row is not deleted and its final
persisted state is `failed`. -/
theorem C6_create_order_gateway_failure (user : User) (p : Product)
    (q : Int) (pid uid : Nat) (tx : String)
    (hact : p.status = ProductStatus.active) (hstock : q ≤ p.stock) :
    createOrder (some user) (some p) q pid uid tx none =
      { writes := [Write.saveOrder
            { userId := some uid, productId := pid, quantity := q,
              totalPrice := p.price * q, txRef := tx,
              status := OrderStatus.pending },
          Write.saveOrder
            { userId := some uid, productId := pid, quantity := q,
              totalPrice := p.price * q, txRef := tx,
              status := OrderStatus.failed }],
        outcome := .error (.internal "Could not process payment") } := by
  simp [createOrder, hact, not_lt.mpr hstock]

/-- C6 witness: the concrete active product, quantity 2, no gateway
session. -/
theorem C6_witness :
    createOrder (some uEx) (some pEx) 2 10 1 "TX-x" none =
      { writes := [Write.saveOrder
            { userId := some 1, productId := 10, quantity := 2,
              totalPrice := pEx.price * 2, txRef := "TX-x",
              status := OrderStatus.pending },
          Write.saveOrder
            { userId := some 1, productId := 10, quantity := 2,
              totalPrice := pEx.price * 2, txRef := "TX-x",
              status := OrderStatus.failed }],
        outcome := .error (.internal "Could not process payment") } :=
  C6_create_order_gateway_failure uEx pEx 2 10 1 "TX-x" rfl (by decide)

/-- C7: when the supplied `x-chapa-signature` header differs from the
HMAC-SHA256 of the serialized request body under the shared secret, the
webhook endpoint rejects with the invalid-signature
`BadRequestException` without querying the gateway and without any
order or product write. -/
theorem C7_webhook_rejects_bad_signature (hmacSha256 : String → String → String)
    (secret bodyJson sig : String) (resp : ChapaVerifyResp)
    (lookup : Option (Order × Product))
    (hmis : hmacSha256 secret bodyJson ≠ sig) :
    webhookVerifyPayment hmacSha256 secret bodyJson sig resp lookup =
      { gatewayQueried := false, writes := [],
        outcome := .error (.badRequest "Invalid Chapa signature") } := by
  simp [webhookVerifyPayment, hmis]

/-- C7 witness: a concrete keyed hash that disagrees with the supplied
header value. -/
theorem C7_witness :
    webhookVerifyPayment (fun k m => k ++ m) "sec" "body" "wrong" respEx
        (some (oEx, pEx)) =
      { gatewayQueried := false, writes := [],
        outcome := .error (.badRequest "Invalid Chapa signature") } :=
  C7_webhook_rejects_bad_signature (fun k m => k ++ m) "sec" "body" "wrong"
    respEx (some (oEx, pEx)) (by decide)

/-- C8: the product-state invariant (stock never negative; zero stock
never `active`) is preserved by each order-subsystem operation, on
success and on error alike: by `createOrder` (which never writes the
product), by `verifyPayment` on the order's product, and by
`updateOrderStatus` (whose order, coming from the checkout DTO with its
`Min(1)` bound, has non-negative quantity). -/
theorem C8_product_invariant_preserved :
    (∀ (user : Option User) (q : Int) (pid uid : Nat) (tx : String)
        (gw : Option String) (p : Product), ProductInv p →
      ProductInv (postProduct p
        (createOrder user (some p) q pid uid tx gw).writes)) ∧
    (∀ (resp : ChapaVerifyResp) (o : Order) (p : Product), ProductInv p →
      ProductInv (postProduct p (verifyPayment resp (some (o, p))).writes)) ∧
    (∀ (o : Order) (p : Product) (u : Nat) (s : OrderStatus),
      0 ≤ o.quantity → ProductInv p →
      ProductInv (postProduct p
        (updateOrderStatus (some (o, p)) u s (some p)).writes)) := by
  refine ⟨?_, ?_, ?_⟩
  · intro user q pid uid tx gw p hp
    have hpp : postProduct p (createOrder user (some p) q pid uid tx gw).writes = p := by
      cases user <;> cases gw <;> simp only [createOrder] <;>
        (try split_ifs) <;> simp [postProduct]
    rw [hpp]; exact hp
  · intro resp o p hp
    obtain ⟨hp1, hp2⟩ := hp
    by_cases h1 : resp.status = "success" <;>
      by_cases h2 : resp.dataStatus = "success" <;>
        by_cases h3 : o.status = OrderStatus.pending <;>
          by_cases h4 : o.quantity ≤ p.stock <;>
            by_cases h5 : p.stock - o.quantity = 0 <;>
              simp [verifyPayment, postProduct, ProductInv, h1, h2, h3, h4, h5] <;>
                exact ⟨hp1, hp2⟩
  · intro o p u s hq hp
    obtain ⟨hp1, hp2⟩ := hp
    by_cases h1 : p.userId = u
    · by_cases h2 : s = OrderStatus.failed ∧ o.status = OrderStatus.successful
      · by_cases h3 : p.stock + o.quantity > 0 ∧
            p.status = ProductStatus.out_of_stock
        · obtain ⟨h3a, h3b⟩ := h3
          simp [updateOrderStatus, postProduct, ProductInv, h1, h2, h3a, h3b]
          omega
        · simp [updateOrderStatus, postProduct, ProductInv, h1, h2, h3]
          exact ⟨by omega, fun h0 => hp2 (by omega)⟩
      · simp [updateOrderStatus, postProduct, ProductInv, h1, h2]
        exact ⟨hp1, hp2⟩
    · simp [updateOrderStatus, postProduct, ProductInv, h1]
      exact ⟨hp1, hp2⟩

/-- C8 witness: verifying the concrete pending order keeps the invariant
on the resulting product row. -/
theorem C8_witness :
    ProductInv pEx ∧
    ProductInv (postProduct pEx (verifyPayment respEx (some (oEx, pEx))).writes) :=
  ⟨by decide, C8_product_invariant_preserved.2.1 respEx oEx pEx (by decide)⟩

/-- C9: single-order lookup authorization.  First conjunct: a requester
who is neither the order's buyer nor the owner of the order's product
receives `ForbiddenException` — never the order and never a `NotFound`
for an existing order.  Second and third conjuncts: the buyer and the
product owner each receive the order. -/
theorem C9_get_order_authorization :
    (∀ (o : Order) (p : Product) (u : Nat),
      o.userId ≠ some u → p.userId ≠ u →
      getOrderById (some (o, p)) u =
        .error (.forbidden "You do not have access to this order")) ∧
    (∀ (o : Order) (p : Product) (u : Nat), o.userId = some u →
      getOrderById (some (o, p)) u = .ok o) ∧
    (∀ (o : Order) (p : Product) (u : Nat), p.userId = u →
      getOrderById (some (o, p)) u = .ok o) := by
  refine ⟨?_, ?_, ?_⟩
  · intro o p u hb ho
    simp [getOrderById, hb, ho]
  · intro o p u hb
    simp [getOrderById, hb]
  · intro o p u ho
    simp [getOrderById, ho]

/-- C9 witness: user 99 (neither buyer 1 nor owner 7) is refused the
concrete order. -/
theorem C9_witness :
    getOrderById (some (oEx, pEx)) 99 =
      .error (.forbidden "You do not have access to this order") :=
  C9_get_order_authorization.1 oEx pEx 99 (by decide) (by decide)

end PM
